import Mathlib

/-!
Shallow embedding of the measurement and classification engine of the
Indian-Censorship-Project repository, together with theorems settling the
frozen claims about it.  Each definition mirrors one Python function of the
source (`notebooks/02_measure_connectivity.py`, `notebooks/25_compare_vantages.py`,
`notebooks/20_merge_local_and_ooni.py`, `notebooks/30_classify_domains.py`).
Strings are Lean `String`s; Python substring / lower-casing operations are
modelled by executable helpers below (the block-page phrases and outcome
labels are pure ASCII, where Python `str.lower` and `Char.toLower` agree).
-/

/-- Lower-case a string character by character (Python `str.lower` on ASCII). -/
def strLower (s : String) : String :=
  String.mk (s.data.map Char.toLower)

/-- Test whether the first list is a leading segment of the second
(character lists, used for Python substring membership). -/
def leadMatch : List Char → List Char → Bool
  | [], _ => true
  | _ :: _, [] => false
  | a :: as, b :: bs => a == b && leadMatch as bs

/-- Test whether `needle` occurs contiguously inside `hay` (character lists). -/
def subMatch (needle : List Char) : List Char → Bool
  | [] => needle.isEmpty
  | c :: cs => leadMatch needle (c :: cs) || subMatch needle cs

/-- Python `needle in hay` on strings: contiguous substring test. -/
def strContainsSub (hay needle : String) : Bool :=
  subMatch needle.data hay.data

/-- Python `hay.startswith(lead)`. -/
def strStarts (hay lead : String) : Bool :=
  leadMatch lead.data hay.data

/-- Python `sep.join(parts)`. -/
def strJoin (sep : String) : List String → String
  | [] => ""
  | [x] => x
  | x :: xs => x ++ sep ++ strJoin sep xs

/-- Python lexicographic string comparison `a < b`, by code point, a proper
leading segment counting as smaller (character lists). -/
def lexLt : List Char → List Char → Bool
  | [], [] => false
  | [], _ :: _ => true
  | _ :: _, [] => false
  | a :: as, b :: bs =>
      if a.toNat < b.toNat then true
      else if b.toNat < a.toNat then false
      else lexLt as bs

/-- Python `a < b` on strings. -/
def strLt (a b : String) : Bool := lexLt a.data b.data

namespace Measure

/-- Phrases typical of Indian ISP/DoT block pages, from
`02_measure_connectivity.py` (`BLOCKPAGE_PHRASES`), matched lower-case. -/
def BLOCKPAGE_PHRASES : List String :=
  [ "blocked as per the instructions received from the department of telecommunications"
  , "this url has been blocked as per order of the competent authority"
  , "has been blocked as per the directions received from the competent authorities" ]

/-- Shared fall-through tail of `classify_http_outcome`: the error-text and
final-URL checks reached when no status-code range matched. -/
def classifyNoStatus (errors : List String) (final_url : String) : String :=
  if errors ≠ [] then
    let error_text := strLower (strJoin " " errors)
    if strContainsSub error_text "timeout" then "timeout"
    else if strContainsSub error_text "connection" ||
            strContainsSub error_text "name or service not known" then "connection_error"
    else "other_error"
  else if final_url ≠ "" then "success"
  else "no_response"

/-- Embedding of `classify_http_outcome` from `02_measure_connectivity.py`:
map status/error info to a normalized outcome label. -/
def classify_http_outcome (status_code : Option Int) (errors : List String)
    (final_url : String) : String :=
  match status_code with
  | some sc =>
      if sc = 401 ∨ sc = 403 then "access_denied"
      else if 200 ≤ sc ∧ sc < 300 then "success"
      else if 300 ≤ sc ∧ sc < 400 then "redirect"
      else if 400 ≤ sc ∧ sc < 500 then "client_error"
      else if 500 ≤ sc ∧ sc < 600 then "server_error"
      else classifyNoStatus errors final_url
  | none => classifyNoStatus errors final_url

end Measure

/-- Test whether an optional status code lies in a closed interval
(false when absent); used to phrase the claim text of C1. -/
def statusInRange (status_code : Option Int) (lo hi : Int) : Bool :=
  match status_code with
  | some c => lo ≤ c ∧ c ≤ hi
  | none => false

/-- Written from the claim text of C1 (the precedence list of spec section 4.2),
to be compared with the source embedding: first match wins, with the error-text
checks phrased over the joined lower-cased error text. -/
def spec_classify_http_outcome (status_code : Option Int) (errors : List String)
    (final_url : String) : String :=
  if status_code = some 401 ∨ status_code = some 403 then "access_denied"
  else if statusInRange status_code 200 299 then "success"
  else if statusInRange status_code 300 399 then "redirect"
  else if statusInRange status_code 400 499 then "client_error"
  else if statusInRange status_code 500 599 then "server_error"
  else if strContainsSub (strLower (strJoin " " errors)) "timeout" then "timeout"
  else if strContainsSub (strLower (strJoin " " errors)) "connection" ||
          strContainsSub (strLower (strJoin " " errors)) "name or service not known" then
    "connection_error"
  else if errors ≠ [] then "other_error"
  else if final_url ≠ "" then "success"
  else "no_response"

theorem classifyNoStatus_eq (errors : List String) (final_url : String) :
    Measure.classifyNoStatus errors final_url =
      (if strContainsSub (strLower (strJoin " " errors)) "timeout" then "timeout"
       else if strContainsSub (strLower (strJoin " " errors)) "connection" ||
               strContainsSub (strLower (strJoin " " errors)) "name or service not known" then
         "connection_error"
       else if errors ≠ [] then "other_error"
       else if final_url ≠ "" then "success"
       else "no_response") := by
  cases errors with
  | nil =>
      have h1 : strContainsSub (strLower (strJoin " " ([] : List String))) "timeout" = false := by
        decide
      have h2 : strContainsSub (strLower (strJoin " " ([] : List String))) "connection" = false := by
        decide
      have h3 : strContainsSub (strLower (strJoin " " ([] : List String)))
          "name or service not known" = false := by decide
      simp [Measure.classifyNoStatus, h1, h2, h3]
  | cons e es =>
      simp [Measure.classifyNoStatus]

set_option maxHeartbeats 1000000 in
/-- C1: for every input (status_code, error_list, final_url), `classify_http_outcome`
returns exactly the label of the claim's precedence list, first match wins
(`spec_classify_http_outcome` transcribes that list).  Determinism is inherent:
the embedding is a pure function, so identical inputs give identical labels. -/
theorem c1_classify_http_outcome_matches_spec (status_code : Option Int)
    (errors : List String) (final_url : String) :
    Measure.classify_http_outcome status_code errors final_url =
      spec_classify_http_outcome status_code errors final_url := by
  have htail := classifyNoStatus_eq errors final_url
  cases status_code with
  | none =>
      simpa only [Measure.classify_http_outcome, spec_classify_http_outcome,
        statusInRange, reduceCtorEq, or_self, if_false, Bool.false_eq_true] using htail
  | some c =>
      simp only [Measure.classify_http_outcome, spec_classify_http_outcome,
        statusInRange, Option.some.injEq, decide_eq_true_eq]
      rw [htail]
      split_ifs <;> first | rfl | omega

namespace Measure

/-- Result of one `requests.get` attempt inside `fetch_http_https`: either a
response (status code, final URL after redirects, decoded body snippet) or a
raised `RequestException` with its message. -/
inductive HttpAttempt where
  | ok (status : Int) (finalUrl : String) (body : String)
  | exn (msg : String)

/-- Record returned by `fetch_http_https` (the HTTP-related fields of a
MeasurementRow); the Python empty-string status cell is `none`. -/
structure HttpResult where
  http_final_url : String
  http_status_code : Option Int
  http_outcome : String
  http_error : String
  http_body_snippet : String

/-- Python `any(phrase in snippet_lower for phrase in BLOCKPAGE_PHRASES)`
applied to the lower-cased snippet. -/
def containsBlockpagePhrase (snippet : String) : Bool :=
  BLOCKPAGE_PHRASES.any (fun phrase => strContainsSub (strLower snippet) phrase)

/-- Tail of `fetch_http_https` after the two attempts: classification, the
blockpage override on the body snippet, and assembly of the result record. -/
def finishFetch (status_code : Option Int) (errors : List String)
    (final_url body_snippet : String) : HttpResult :=
  let outcome := classify_http_outcome status_code errors final_url
  let outcome :=
    if body_snippet ≠ "" then
      if containsBlockpagePhrase body_snippet then "blockpage_india" else outcome
    else outcome
  { http_final_url := final_url
  , http_status_code := status_code
  , http_outcome := outcome
  , http_error := strJoin " | " errors
  , http_body_snippet := body_snippet }

/-- Embedding of `fetch_http_https` from `02_measure_connectivity.py`: try
HTTPS first, fall back to plain HTTP when HTTPS raises; the two attempt
outcomes stand for the network's behaviour on this fetch. -/
def fetch_http_https (httpsAttempt httpAttempt : HttpAttempt) : HttpResult :=
  match httpsAttempt with
  | .ok st url body => finishFetch (some st) [] url body
  | .exn e1 =>
      match httpAttempt with
      | .ok st url body => finishFetch (some st) ["HTTPS error: " ++ e1] url body
      | .exn e2 =>
          finishFetch none ["HTTPS error: " ++ e1, "HTTP error: " ++ e2] "" ""

/-- Status code of the response actually obtained by the two attempts, before
any recording: the HTTPS status when HTTPS answered, else the HTTP fallback
status when that answered, else absent. -/
def obtainedStatus (httpsAttempt httpAttempt : HttpAttempt) : Option Int :=
  match httpsAttempt with
  | .ok st _ _ => some st
  | .exn _ =>
      match httpAttempt with
      | .ok st _ _ => some st
      | .exn _ => none

end Measure

theorem containsBlockpagePhrase_empty : Measure.containsBlockpagePhrase "" = false := by
  decide

/-- C2: whenever the body snippet recorded by `fetch_http_https` contains a
block-page phrase (case-insensitively), the recorded outcome is
`blockpage_india` — whatever the status-derived label, including status 200 —
and the recorded status code is the unmodified status of the obtained
response. -/
theorem c2_blockpage_override (httpsAttempt httpAttempt : Measure.HttpAttempt)
    (h : Measure.containsBlockpagePhrase
          (Measure.fetch_http_https httpsAttempt httpAttempt).http_body_snippet = true) :
    (Measure.fetch_http_https httpsAttempt httpAttempt).http_outcome = "blockpage_india" ∧
    (Measure.fetch_http_https httpsAttempt httpAttempt).http_status_code =
      Measure.obtainedStatus httpsAttempt httpAttempt := by
  cases httpsAttempt with
  | ok st url body =>
      by_cases hb : body = ""
      · subst hb
        rw [show (Measure.fetch_http_https (.ok st url "") httpAttempt).http_body_snippet
              = "" from rfl] at h
        exact absurd h (by simp [containsBlockpagePhrase_empty])
      · refine ⟨?_, rfl⟩
        have h2 : Measure.containsBlockpagePhrase body = true := h
        simp [Measure.fetch_http_https, Measure.finishFetch, hb, h2]
  | exn e1 =>
      cases httpAttempt with
      | ok st url body =>
          by_cases hb : body = ""
          · subst hb
            rw [show (Measure.fetch_http_https (.exn e1) (.ok st url "")).http_body_snippet
                  = "" from rfl] at h
            exact absurd h (by simp [containsBlockpagePhrase_empty])
          · refine ⟨?_, rfl⟩
            have h2 : Measure.containsBlockpagePhrase body = true := h
            simp [Measure.fetch_http_https, Measure.finishFetch, hb, h2]
      | exn e2 =>
          rw [show (Measure.fetch_http_https (.exn e1) (.exn e2)).http_body_snippet
                = "" from rfl] at h
          exact absurd h (by simp [containsBlockpagePhrase_empty])

/-- Body snippet of a simulated Indian ISP block page, for the C2 witness. -/
def c2DemoBody : String :=
  "<html><body>This URL has been blocked as per order of the Competent Authority.</body></html>"

theorem c2_blockpage_override_witness :
    Measure.containsBlockpagePhrase
      (Measure.fetch_http_https (.ok 200 "https://blocked.example/" c2DemoBody)
        (.exn "unused")).http_body_snippet = true ∧
    ((Measure.fetch_http_https (.ok 200 "https://blocked.example/" c2DemoBody)
        (.exn "unused")).http_outcome = "blockpage_india" ∧
     (Measure.fetch_http_https (.ok 200 "https://blocked.example/" c2DemoBody)
        (.exn "unused")).http_status_code =
       Measure.obtainedStatus (.ok 200 "https://blocked.example/" c2DemoBody) (.exn "unused")) :=
  ⟨by decide, c2_blockpage_override _ _ (by decide)⟩

namespace Measure

/-- Flags of the row invariant of spec section 3 for the HTTP fields: status
code present, http_error non-empty, outcome `no_response`. -/
def rowInvFlags (r : HttpResult) : List Bool :=
  [r.http_status_code.isSome, !(r.http_error == ""), r.http_outcome == "no_response"]

/-- The claimed invariant: exactly one of the three flags holds. -/
def exactlyOneInvariant (r : HttpResult) : Bool :=
  (rowInvFlags r).countP (fun b => b) == 1

/-- The weakened invariant: at least one of the three flags holds. -/
def atLeastOneInvariant (r : HttpResult) : Bool :=
  (rowInvFlags r).any (fun b => b)

end Measure

theorem strPrefixed_ne_empty (p e : String) (hp : p.length ≠ 0) : p ++ e ≠ "" := by
  intro h
  have hlen := congrArg String.length h
  rw [String.length_append] at hlen
  simp only [show ("" : String).length = 0 from rfl] at hlen
  omega

/-- C4 counterexample: when the HTTPS attempt raises and the plain-HTTP
fallback returns a status-200 response, the produced row has both a status
code and a non-empty `http_error`, so "exactly one of status present,
http_error non-empty, no_response" is false. -/
theorem c4_exactly_one_counterexample :
    Measure.exactlyOneInvariant
      (Measure.fetch_http_https (.exn "connection refused by peer")
        (.ok 200 "http://fallback.example/" "")) = false ∧
    (Measure.fetch_http_https (.exn "connection refused by peer")
        (.ok 200 "http://fallback.example/" "")).http_status_code = some 200 ∧
    (Measure.fetch_http_https (.exn "connection refused by peer")
        (.ok 200 "http://fallback.example/" "")).http_error =
      "HTTPS error: connection refused by peer" := by decide

/-- C4 amended: every row produced by `fetch_http_https` satisfies at least
one of {status code present, http_error non-empty, outcome `no_response`},
and in the HTTPS-failed/HTTP-fallback-answered case the first two hold
simultaneously (so "exactly one" fails precisely there). -/
theorem c4_at_least_one_invariant :
    (∀ (httpsAttempt httpAttempt : Measure.HttpAttempt),
        Measure.atLeastOneInvariant
          (Measure.fetch_http_https httpsAttempt httpAttempt) = true) ∧
    (∀ (e : String) (st : Int) (url body : String),
        (Measure.fetch_http_https (.exn e) (.ok st url body)).http_status_code.isSome = true ∧
        (Measure.fetch_http_https (.exn e) (.ok st url body)).http_error ≠ "") := by
  constructor
  · intro httpsAttempt httpAttempt
    cases httpsAttempt with
    | ok st url body =>
        simp [Measure.fetch_http_https, Measure.finishFetch,
          Measure.atLeastOneInvariant, Measure.rowInvFlags]
    | exn e1 =>
        cases httpAttempt with
        | ok st url body =>
            simp [Measure.fetch_http_https, Measure.finishFetch,
              Measure.atLeastOneInvariant, Measure.rowInvFlags]
        | exn e2 =>
            have hne : ("HTTPS error: " ++ e1) ++ " | " ++ ("HTTP error: " ++ e2) ≠ "" := by
              have : ("HTTPS error: " ++ e1) ++ " | " ++ ("HTTP error: " ++ e2)
                  = ("HTTPS error: " ++ e1) ++ (" | " ++ ("HTTP error: " ++ e2)) := by
                rw [String.append_assoc]
              rw [this]
              exact strPrefixed_ne_empty _ _ (by
                rw [String.length_append]
                have : ("HTTPS error: " : String).length = 13 := rfl
                omega)
            simp [Measure.fetch_http_https, Measure.finishFetch,
              Measure.atLeastOneInvariant, Measure.rowInvFlags, strJoin, hne]
  · intro e st url body
    refine ⟨rfl, ?_⟩
    show strJoin " | " ["HTTPS error: " ++ e] ≠ ""
    simp only [strJoin]
    exact strPrefixed_ne_empty _ _ (by
      have : ("HTTPS error: " : String).length = 13 := rfl
      omega)

namespace CompareVantages

/-- Embedding of `is_success` from `25_compare_vantages.py`: treat
success/redirect as success, lower-casing the outcome text first. -/
def is_success (outcome : String) : Bool :=
  strLower outcome == "success" || strLower outcome == "redirect"

/-- Embedding of `classify_row` from `25_compare_vantages.py`: the diff label
of one joined comparison row, from the two outcomes and blockpage flags,
conditions evaluated top to bottom, first match wins. -/
def classify_row (local_outcome remote_outcome : String)
    (local_block remote_block : Bool) : String :=
  let lo := strLower local_outcome
  let ro := strLower remote_outcome
  let local_success := is_success lo
  let remote_success := is_success ro
  if local_success && remote_success then "both_success"
  else if local_block && remote_success then "india_blockpage_remote_ok"
  else if !local_success && remote_success && !local_block then "india_blocked_remote_ok"
  else if local_success && !remote_success then "remote_blocked_india_ok"
  else if !local_success && !remote_success then "both_bad"
  else if remote_block && local_success then "remote_blockpage_india_ok"
  else "other"

end CompareVantages

/-- C3: when the local side classifies as success (success/redirect) and the
remote side does not, the diff label is `remote_blocked_india_ok` for every
value of the two blockpage flags — in particular also when the remote
blockpage flag is true, so `remote_blockpage_india_ok` is never produced for
that combination: the unconditional local-success/remote-fail row fires
first. -/
theorem c3_remote_blocked_precedence (local_outcome remote_outcome : String)
    (local_block remote_block : Bool)
    (hl : CompareVantages.is_success (strLower local_outcome) = true)
    (hr : CompareVantages.is_success (strLower remote_outcome) = false) :
    CompareVantages.classify_row local_outcome remote_outcome local_block remote_block =
      "remote_blocked_india_ok" := by
  simp [CompareVantages.classify_row, hl, hr]

theorem c3_remote_blocked_precedence_witness :
    CompareVantages.is_success (strLower "success") = true ∧
    CompareVantages.is_success (strLower "timeout") = false ∧
    CompareVantages.classify_row "success" "timeout" false true =
      "remote_blocked_india_ok" :=
  ⟨by decide, by decide, c3_remote_blocked_precedence _ _ _ _ (by decide) (by decide)⟩

/-- C10: the diff label of `classify_row` is always one of the five values
`both_success`, `india_blockpage_remote_ok`, `india_blocked_remote_ok`,
`remote_blocked_india_ok`, `both_bad`; the `other` and
`remote_blockpage_india_ok` branches are unreachable because the first five
conditions exhaust all combinations of the two success bits and the local
blockpage flag. -/
theorem c10_diff_label_closed_set (local_outcome remote_outcome : String)
    (local_block remote_block : Bool) :
    CompareVantages.classify_row local_outcome remote_outcome local_block remote_block ∈
      ["both_success", "india_blockpage_remote_ok", "india_blocked_remote_ok",
       "remote_blocked_india_ok", "both_bad"] := by
  cases hl : CompareVantages.is_success (strLower local_outcome) <;>
    cases hr : CompareVantages.is_success (strLower remote_outcome) <;>
      cases local_block <;>
        simp [CompareVantages.classify_row, hl, hr]


theorem lexLt_irrefl (l : List Char) : lexLt l l = false := by
  induction l with
  | nil => rfl
  | cons a as ih => simp [lexLt, ih]

theorem lexLt_trans (a b c : List Char) (h1 : lexLt a b = true)
    (h2 : lexLt b c = true) : lexLt a c = true := by
  induction a generalizing b c with
  | nil =>
      cases b with
      | nil => simp [lexLt] at h1
      | cons bb bs =>
          cases c with
          | nil => simp [lexLt] at h2
          | cons cc cs => rfl
  | cons aa as ih =>
      cases b with
      | nil => simp [lexLt] at h1
      | cons bb bs =>
          cases c with
          | nil => simp [lexLt] at h2
          | cons cc cs =>
              simp only [lexLt] at h1 h2 ⊢
              split_ifs at h1 h2 ⊢ <;>
                first
                  | rfl
                  | (exfalso; omega)
                  | exact ih bs cs h1 h2

theorem lexLt_false_trans (a b c : List Char) (h1 : lexLt a b = false)
    (h2 : lexLt b c = false) : lexLt a c = false := by
  induction a generalizing b c with
  | nil =>
      cases b with
      | nil =>
          cases c with
          | nil => rfl
          | cons cc cs => simp [lexLt] at h2
      | cons bb bs =>
          simp [lexLt] at h1
  | cons aa as ih =>
      cases b with
      | nil =>
          cases c with
          | nil => rfl
          | cons cc cs => simp [lexLt] at h2
      | cons bb bs =>
          cases c with
          | nil => rfl
          | cons cc cs =>
              simp only [lexLt] at h1 h2 ⊢
              split_ifs at h1 h2 ⊢ <;>
                first
                  | rfl
                  | (exfalso; omega)
                  | exact ih bs cs h1 h2

theorem strLt_irrefl (s : String) : strLt s s = false := lexLt_irrefl s.data

theorem strLt_trans {a b c : String} (h1 : strLt a b = true) (h2 : strLt b c = true) :
    strLt a c = true := lexLt_trans a.data b.data c.data h1 h2

theorem strLt_false_trans {a b c : String} (h1 : strLt a b = false)
    (h2 : strLt b c = false) : strLt a c = false :=
  lexLt_false_trans a.data b.data c.data h1 h2

theorem strLt_asymm {a b : String} (h : strLt a b = true) : strLt b a = false := by
  by_contra hc
  rw [Bool.not_eq_false] at hc
  have := strLt_trans h hc
  rw [strLt_irrefl] at this
  exact Bool.noConfusion this

namespace CompareVantages

/-- One row of the raw measurement table, restricted to the columns the Run
Aggregator touches. -/
structure RawRow where
  run_id : String
  vantage : String
  domain : String
  http_outcome : String
deriving DecidableEq

/-- Binary maximum under Python string comparison (`pandas` reduces
`Series.max` over the object column with exactly this comparison). -/
def runMax (a b : String) : String := if strLt a b then b else a

/-- Embedding of `df_v["run_id"].max()`: the lexicographically greatest
run_id of the column, reduced left to right. -/
def maxRunId : List String → String
  | [] => ""
  | x :: xs => xs.foldl runMax x

/-- Embedding of `load_latest_for_vantage` from `25_compare_vantages.py`:
filter to one vantage, raise if missing, then keep only the rows of the
greatest run_id (raising `ValueError` is modelled as `Except.error`). -/
def load_latest_for_vantage (df : List RawRow) (vantage : String) :
    Except String (List RawRow) :=
  let df_v := df.filter (fun r => r.vantage == vantage)
  if df_v.isEmpty then
    Except.error ("No rows found for vantage " ++ vantage)
  else
    let latest_run := maxRunId (df_v.map RawRow.run_id)
    let df_run := df_v.filter (fun r => r.run_id == latest_run)
    if df_run.isEmpty then
      Except.error ("No rows for vantage " ++ vantage ++ " at run_id " ++ latest_run)
    else
      Except.ok df_run

end CompareVantages

theorem foldl_runMax_mem (x : String) (xs : List String) :
    xs.foldl CompareVantages.runMax x ∈ x :: xs := by
  induction xs generalizing x with
  | nil => simp
  | cons y ys ih =>
      simp only [List.foldl_cons]
      rcases List.mem_cons.mp (ih (CompareVantages.runMax x y)) with h1 | h1
      · rw [h1]
        by_cases hxy : strLt x y = true
        · simp [CompareVantages.runMax, hxy]
        · simp [CompareVantages.runMax, hxy]
      · exact List.mem_cons_of_mem _ (List.mem_cons_of_mem _ h1)

theorem runMax_not_lt_left (x y : String) :
    strLt (CompareVantages.runMax x y) x = false := by
  by_cases hxy : strLt x y = true
  · simp only [CompareVantages.runMax, hxy, if_true]
    exact strLt_asymm hxy
  · simp only [CompareVantages.runMax, hxy, if_false]
    exact strLt_irrefl x

theorem runMax_not_lt_right (x y : String) :
    strLt (CompareVantages.runMax x y) y = false := by
  by_cases hxy : strLt x y = true
  · simp only [CompareVantages.runMax, hxy, if_true]
    exact strLt_irrefl y
  · simp only [CompareVantages.runMax, hxy, if_false]
    simpa using hxy

theorem foldl_runMax_ge (x : String) (xs : List String) :
    ∀ y ∈ x :: xs, strLt (xs.foldl CompareVantages.runMax x) y = false := by
  induction xs generalizing x with
  | nil =>
      intro y hy
      simp only [List.mem_singleton] at hy
      subst hy
      exact strLt_irrefl y
  | cons z zs ih =>
      intro y hy
      simp only [List.foldl_cons]
      have hacc := ih (CompareVantages.runMax x z)
      rcases List.mem_cons.mp hy with h1 | h1
      · subst h1
        exact strLt_false_trans (hacc _ (List.mem_cons_self _ _)) (runMax_not_lt_left _ _)
      · rcases List.mem_cons.mp h1 with h2 | h2
        · subst h2
          exact strLt_false_trans (hacc _ (List.mem_cons_self _ _)) (runMax_not_lt_right _ _)
        · exact hacc y (List.mem_cons_of_mem _ h2)

theorem maxRunId_mem (l : List String) (h : l ≠ []) :
    CompareVantages.maxRunId l ∈ l := by
  cases l with
  | nil => exact absurd rfl h
  | cons x xs => exact foldl_runMax_mem x xs

theorem maxRunId_ge (l : List String) (h : l ≠ []) :
    ∀ y ∈ l, strLt (CompareVantages.maxRunId l) y = false := by
  cases l with
  | nil => exact absurd rfl h
  | cons x xs => exact foldl_runMax_ge x xs

/-- C5: for a vantage with at least one raw row, `load_latest_for_vantage`
returns exactly the rows of that vantage whose run_id equals the
lexicographically greatest run_id among the vantage's rows (that value is a
member of the run_id column and no run_id of the column exceeds it, so no two
runs are ever mixed); for a vantage with zero rows it raises an error. -/
theorem c5_latest_run_selection (df : List CompareVantages.RawRow) (v : String) :
    (df.filter (fun r => r.vantage == v) = [] →
       ∃ msg, CompareVantages.load_latest_for_vantage df v = Except.error msg) ∧
    (df.filter (fun r => r.vantage == v) ≠ [] →
       CompareVantages.load_latest_for_vantage df v =
         Except.ok ((df.filter (fun r => r.vantage == v)).filter
           (fun r => r.run_id ==
             CompareVantages.maxRunId
               ((df.filter (fun r => r.vantage == v)).map CompareVantages.RawRow.run_id))) ∧
       CompareVantages.maxRunId
           ((df.filter (fun r => r.vantage == v)).map CompareVantages.RawRow.run_id) ∈
         (df.filter (fun r => r.vantage == v)).map CompareVantages.RawRow.run_id ∧
       ∀ s ∈ (df.filter (fun r => r.vantage == v)).map CompareVantages.RawRow.run_id,
         strLt (CompareVantages.maxRunId
           ((df.filter (fun r => r.vantage == v)).map CompareVantages.RawRow.run_id)) s =
           false) := by
  constructor
  · intro h
    exact ⟨"No rows found for vantage " ++ v,
      by simp [CompareVantages.load_latest_for_vantage, h]⟩
  · intro h
    have hne : (df.filter (fun r => r.vantage == v)).map CompareVantages.RawRow.run_id ≠ [] := by
      simpa [List.map_eq_nil_iff] using h
    have hmem := maxRunId_mem _ hne
    have hge := maxRunId_ge _ hne
    refine ⟨?_, hmem, hge⟩
    obtain ⟨r, hr, hrid⟩ := List.mem_map.mp hmem
    have hrun : r ∈ (df.filter (fun s => s.vantage == v)).filter
        (fun s => s.run_id ==
          CompareVantages.maxRunId
            ((df.filter (fun t => t.vantage == v)).map CompareVantages.RawRow.run_id)) :=
      List.mem_filter.mpr ⟨hr, by simp [hrid]⟩
    have hv : (df.filter (fun r => r.vantage == v)).isEmpty = false := by
      simp [List.isEmpty_iff, h]
    have hrune : ((df.filter (fun s => s.vantage == v)).filter
        (fun s => s.run_id ==
          CompareVantages.maxRunId
            ((df.filter (fun t => t.vantage == v)).map CompareVantages.RawRow.run_id))).isEmpty
          = false := by
      have hne2 := List.ne_nil_of_mem hrun
      simpa [List.isEmpty_iff] using hne2
    simp only [CompareVantages.load_latest_for_vantage, hv, hrune, Bool.false_eq_true,
      if_false]

/-- Raw rows of two vantages and two runs, for the C5 witness. -/
def c5DemoRows : List CompareVantages.RawRow :=
  [ ⟨"20250101T000000Z", "IN-home", "a.example", "success"⟩
  , ⟨"20250102T000000Z", "IN-home", "a.example", "timeout"⟩
  , ⟨"20250101T000000Z", "VPN-EU", "a.example", "success"⟩ ]

theorem c5_latest_run_selection_witness :
    CompareVantages.load_latest_for_vantage c5DemoRows "IN-home" =
      Except.ok [⟨"20250102T000000Z", "IN-home", "a.example", "timeout"⟩] := by
  have h := (c5_latest_run_selection c5DemoRows "IN-home").2 (by decide)
  rw [h.1]
  rfl

namespace Measure

/-- One entry of the filtered domain list: domain, category, subcategory
(already stripped, as in `main`). -/
structure DomainInfo where
  domain : String
  category : String
  subcategory : String
deriving DecidableEq

/-- One complete row of the measurement store, in the column order of
`FIELDNAMES`; the empty-string status cell is `none`. -/
structure MeasurementRow where
  run_id : String
  vantage : String
  timestamp_utc : String
  domain : String
  category : String
  subcategory : String
  tcp_80_ok : Bool
  tcp_80_error : String
  tcp_443_ok : Bool
  tcp_443_error : String
  dns_local_ok : Bool
  dns_local_ips : String
  dns_local_error : String
  dns_public_ok : Bool
  dns_public_ips : String
  dns_public_error : String
  http_final_url : String
  http_status_code : Option Int
  http_outcome : String
  http_error : String
  http_body_snippet : String
  tls_ok : Bool
  tls_issuer : String
  tls_not_before : String
  tls_not_after : String
  tls_error : String
deriving DecidableEq

/-- What happens when `measure_domain` is called on one domain inside the
try of `main`: either it returns a complete row, or an unexpected exception
with the given message escapes the probe-level guards. -/
inductive MeasureOutcome where
  | ok (row : MeasurementRow)
  | exn (msg : String)
deriving DecidableEq

/-- The all-failed row appended by the except-branch of `main` when an
unexpected exception escapes while measuring one domain. -/
def pipelineErrorRow (run_id vantage ts : String) (d : DomainInfo) (msg : String) :
    MeasurementRow :=
  { run_id := run_id
  , vantage := vantage
  , timestamp_utc := ts
  , domain := d.domain
  , category := d.category
  , subcategory := d.subcategory
  , tcp_80_ok := false
  , tcp_80_error := "Pipeline error: " ++ msg
  , tcp_443_ok := false
  , tcp_443_error := "Pipeline error: " ++ msg
  , dns_local_ok := false
  , dns_local_ips := ""
  , dns_local_error := "Pipeline error: " ++ msg
  , dns_public_ok := false
  , dns_public_ips := ""
  , dns_public_error := "Pipeline error: " ++ msg
  , http_final_url := ""
  , http_status_code := none
  , http_outcome := "other_error"
  , http_error := "Pipeline error: " ++ msg
  , http_body_snippet := ""
  , tls_ok := false
  , tls_issuer := ""
  , tls_not_before := ""
  , tls_not_after := ""
  , tls_error := "Pipeline error: " ++ msg }

/-- One iteration of the measurement loop of `main`: the row of the try
branch, or the all-failed row of the except branch. -/
def stepDomain (f : DomainInfo → MeasureOutcome) (run_id vantage ts : String)
    (d : DomainInfo) : MeasurementRow :=
  match f d with
  | .ok row => row
  | .exn msg => pipelineErrorRow run_id vantage ts d msg

/-- Embedding of the measurement loop of `main` from
`02_measure_connectivity.py`: iterate the domain list, appending one row per
domain to the accumulator; `f` stands for the behaviour of `measure_domain`
on each domain in this run. -/
def processDomains (f : DomainInfo → MeasureOutcome) (run_id vantage ts : String)
    (domains : List DomainInfo) : List MeasurementRow :=
  domains.foldl (fun acc d => acc ++ [stepDomain f run_id vantage ts d]) []

/-- The six `*_error` columns of a row, in schema order. -/
def errorFields (r : MeasurementRow) : List String :=
  [r.tcp_80_error, r.tcp_443_error, r.dns_local_error, r.dns_public_error,
   r.http_error, r.tls_error]

/-- All five `*_ok` columns of a row are false. -/
def allOkFalse (r : MeasurementRow) : Bool :=
  !r.tcp_80_ok && !r.tcp_443_ok && !r.dns_local_ok && !r.dns_public_ok && !r.tls_ok

end Measure

theorem foldl_append_singleton {α β : Type} (g : α → β) (ds : List α) (acc : List β) :
    ds.foldl (fun a d => a ++ [g d]) acc = acc ++ ds.map g := by
  induction ds generalizing acc with
  | nil => simp
  | cons d ds ih => simp [ih, List.append_assoc]

/-- C6: the measurement loop emits exactly one row per input domain, in
order, each row depending only on that domain's own measurement outcome; for
a domain whose measurement raises an unexpected exception, the emitted row
is the all-failed row: every ok column false, every `*_error` column the
same descriptive pipeline-error message, and `http_outcome = other_error`.
No failure removes a domain or touches another domain's row. -/
theorem c6_pipeline_error_isolation (f : Measure.DomainInfo → Measure.MeasureOutcome)
    (run_id vantage ts : String) (domains : List Measure.DomainInfo) :
    Measure.processDomains f run_id vantage ts domains =
      domains.map (Measure.stepDomain f run_id vantage ts) ∧
    (∀ (d : Measure.DomainInfo) (msg : String), f d = .exn msg →
       Measure.stepDomain f run_id vantage ts d =
         Measure.pipelineErrorRow run_id vantage ts d msg ∧
       (Measure.pipelineErrorRow run_id vantage ts d msg).domain = d.domain ∧
       Measure.allOkFalse (Measure.pipelineErrorRow run_id vantage ts d msg) = true ∧
       Measure.errorFields (Measure.pipelineErrorRow run_id vantage ts d msg) =
         List.replicate 6 ("Pipeline error: " ++ msg) ∧
       (Measure.pipelineErrorRow run_id vantage ts d msg).http_outcome = "other_error") := by
  refine ⟨foldl_append_singleton _ domains [], ?_⟩
  intro d msg h
  refine ⟨?_, rfl, rfl, ?_, rfl⟩
  · simp [Measure.stepDomain, h]
  · simp [Measure.errorFields, Measure.pipelineErrorRow, List.replicate]

/-- Domain list for the C6 witness: the middle domain's measurement raises. -/
def c6Oracle (d : Measure.DomainInfo) : Measure.MeasureOutcome :=
  if d.domain == "bad.example" then .exn "boom" else .ok (Measure.pipelineErrorRow "" "" "" d "none")

theorem c6_pipeline_error_isolation_witness :
    c6Oracle ⟨"bad.example", "News", ""⟩ = .exn "boom" ∧
    Measure.stepDomain c6Oracle "r1" "IN-home" "t0" ⟨"bad.example", "News", ""⟩ =
      Measure.pipelineErrorRow "r1" "IN-home" "t0" ⟨"bad.example", "News", ""⟩ "boom" :=
  ⟨by decide,
   ((c6_pipeline_error_isolation c6Oracle "r1" "IN-home" "t0"
      [⟨"bad.example", "News", ""⟩]).2 ⟨"bad.example", "News", ""⟩ "boom" (by decide)).1⟩

namespace ClassifyDomains

/-- Fixed set of globally-known banned apps from `30_classify_domains.py`. -/
def banned_apps : List String :=
  ["tiktok.com", "telegram.org", "snapchat.com", "xvideos.com"]

/-- Embedding of `classify_row` from `30_classify_domains.py`: assign a
censorship class from category, subcategory, domain, the lower-cased local
outcome, the external-feed failure rate, the cross-vantage diff label and the
blockpage-seen flag; rules checked top to bottom, first match wins, default
`normal`.  A Python rule whose outer condition matches but whose inner
condition fails falls through, so each nested pair of ifs is one
conjunction here. -/
def classify_row (category subcategory domain local_outcome : String)
    (ooni_rate : ℚ) (vantage_flag : String) (has_blockpage : Bool) : String :=
  let lo := strLower local_outcome
  if category = "Social & Streaming" ∧
     (strContainsSub (strLower subcategory) "adult" = true ∨
      strContainsSub (strLower subcategory) "porn" = true ∨
      strContainsSub (strLower subcategory) "torrent" = true) ∧
     (ooni_rate ≥ 0.9 ∨ lo = "blockpage_india" ∨ has_blockpage = true ∨
      vantage_flag = "india_blockpage_remote_ok") then
    "policy_blocked"
  else if domain ∈ banned_apps ∧ 0.2 ≤ ooni_rate ∧ ooni_rate < 0.9 then
    "app_ban_partial"
  else if category = "Civil Society & NGOs" ∧
     (ooni_rate > 0 ∨ vantage_flag = "india_blocked_remote_ok" ∨
      vantage_flag = "india_blockpage_remote_ok" ∨ has_blockpage = true) then
    "rights_org_suspect"
  else if strStarts category "Government" = true ∧
     (lo = "timeout" ∨ lo = "connection_error") ∧ ooni_rate = 0 then
    "infra_flaky"
  else
    "normal"

end ClassifyDomains

/-- C7: a summary row whose category starts with "Government", whose
lower-cased local outcome is `timeout` or `connection_error` and whose
external-feed failure rate is 0 is classed `infra_flaky` — the three earlier
rules cannot match such a row (rules 1 and 3 need a different category, rule
2 needs a rate of at least 0.2), so no extra no-earlier-rule hypothesis is
needed. -/
theorem c7_infra_flaky_rule (category subcategory domain local_outcome : String)
    (ooni_rate : ℚ) (vantage_flag : String) (has_blockpage : Bool)
    (hcat : strStarts category "Government" = true)
    (hout : strLower local_outcome = "timeout" ∨
            strLower local_outcome = "connection_error")
    (hrate : ooni_rate = 0) :
    ClassifyDomains.classify_row category subcategory domain local_outcome
      ooni_rate vantage_flag has_blockpage = "infra_flaky" := by
  have hc1 : category ≠ "Social & Streaming" := by
    intro h
    rw [h] at hcat
    exact absurd hcat (by decide)
  have hc3 : category ≠ "Civil Society & NGOs" := by
    intro h
    rw [h] at hcat
    exact absurd hcat (by decide)
  rw [ClassifyDomains.classify_row]
  rw [if_neg (fun hand => hc1 hand.1)]
  rw [if_neg (fun hand => by rw [hrate] at hand; exact absurd hand.2.1 (by norm_num))]
  rw [if_neg (fun hand => hc3 hand.1)]
  rw [if_pos ⟨hcat, hout, hrate⟩]

theorem c7_infra_flaky_rule_witness :
    strStarts "Government-Telecom" "Government" = true ∧
    ClassifyDomains.classify_row "Government-Telecom" "Telecom" "gov.example"
      "timeout" 0 "unknown" false = "infra_flaky" :=
  ⟨by decide,
   c7_infra_flaky_rule "Government-Telecom" "Telecom" "gov.example" "timeout" 0
     "unknown" false (by decide) (Or.inl (by decide)) rfl⟩

namespace MergeOoni

/-- Whitespace characters removed by Python `str.strip`. -/
def isSpaceChar (c : Char) : Bool :=
  c == ' ' || c == '\t' || c == '\n' || c == '\r' || c == '\x0b' || c == '\x0c'

/-- Python `s.strip()`: drop leading and trailing whitespace. -/
def strTrim (s : String) : String :=
  String.mk (((s.data.dropWhile isSpaceChar).reverse.dropWhile isSpaceChar).reverse)

/-- Embedding of `_to_bool` from `20_merge_local_and_ooni.py` on the CSV cell
text: empty, "false", "0", "none" and "nan" (after trimming and
lower-casing) are false, everything else true. -/
def to_bool (val : String) : Bool :=
  !(["", "false", "0", "none", "nan"].contains (strLower (strTrim val)))

/-- One row of the cleaned OONI feed, restricted to the columns
`load_ooni_summary` reads. -/
structure OoniRow where
  domain : String
  failure : String
  anomaly : String
  blocking_general : String
deriving DecidableEq

/-- Embedding of the `ooni_fail_flag` column: failure OR anomaly OR
general-blocking, each interpreted through `_to_bool`. -/
def fail_flag (r : OoniRow) : Bool :=
  to_bool r.failure || to_bool r.anomaly || to_bool r.blocking_general

/-- Per-domain external-feed failure rate reaching the classifier: the
composition of the groupby of `load_ooni_summary` (count of rows and of
failing rows for the domain, rate = count / total) with the left join and
`fillna(0.0)` of `merge_and_save` (a domain with no feed rows gets 0.0). -/
def ooni_failure_rate (feed : List OoniRow) (domain : String) : ℚ :=
  let sub := feed.filter (fun r => r.domain == domain)
  if sub.length = 0 then 0
  else ((sub.filter fail_flag).length : ℚ) / (sub.length : ℚ)

end MergeOoni

/-- C9: the external-feed failure rate of every domain is a defined rational
in [0, 1]; a domain with zero feed rows gets exactly 0, and a domain with
feed rows gets failing-count divided by total count, with the failing count
never exceeding the total. -/
theorem c9_failure_rate_bounds (feed : List MergeOoni.OoniRow) (domain : String) :
    0 ≤ MergeOoni.ooni_failure_rate feed domain ∧
    MergeOoni.ooni_failure_rate feed domain ≤ 1 ∧
    (feed.filter (fun r => r.domain == domain) = [] →
       MergeOoni.ooni_failure_rate feed domain = 0) ∧
    (feed.filter (fun r => r.domain == domain) ≠ [] →
       MergeOoni.ooni_failure_rate feed domain =
         (((feed.filter (fun r => r.domain == domain)).filter MergeOoni.fail_flag).length : ℚ) /
           ((feed.filter (fun r => r.domain == domain)).length : ℚ) ∧
       ((feed.filter (fun r => r.domain == domain)).filter MergeOoni.fail_flag).length ≤
         (feed.filter (fun r => r.domain == domain)).length) := by
  have hle : ((feed.filter (fun r => r.domain == domain)).filter MergeOoni.fail_flag).length ≤
      (feed.filter (fun r => r.domain == domain)).length := List.length_filter_le _ _
  by_cases hz : (feed.filter (fun r => r.domain == domain)).length = 0
  · have hrate : MergeOoni.ooni_failure_rate feed domain = 0 := by
      simp [MergeOoni.ooni_failure_rate, hz]
    refine ⟨by rw [hrate], by rw [hrate]; norm_num, fun _ => hrate, fun hne => ?_⟩
    exact absurd (List.length_eq_zero.mp hz) hne
  · have hpos : 0 < ((feed.filter (fun r => r.domain == domain)).length : ℚ) := by
      exact_mod_cast Nat.pos_of_ne_zero hz
    have hrate : MergeOoni.ooni_failure_rate feed domain =
        (((feed.filter (fun r => r.domain == domain)).filter MergeOoni.fail_flag).length : ℚ) /
          ((feed.filter (fun r => r.domain == domain)).length : ℚ) := by
      simp [MergeOoni.ooni_failure_rate, hz]
    refine ⟨?_, ?_, fun hnil => absurd (by rw [hnil]; rfl) hz, fun _ => ⟨hrate, hle⟩⟩
    · rw [hrate]
      positivity
    · rw [hrate]
      rw [div_le_one hpos]
      exact_mod_cast hle

/-- Feed with two rows for one domain, one failing, for the C9 witness. -/
def c9DemoFeed : List MergeOoni.OoniRow :=
  [⟨"x.example", "true", "", ""⟩, ⟨"x.example", "false", "", ""⟩]

theorem c9_failure_rate_bounds_witness :
    MergeOoni.ooni_failure_rate c9DemoFeed "missing.example" = 0 ∧
    MergeOoni.ooni_failure_rate c9DemoFeed "x.example" = 1 / 2 := by
  constructor
  · exact (c9_failure_rate_bounds c9DemoFeed "missing.example").2.2.1 rfl
  · have h := ((c9_failure_rate_bounds c9DemoFeed "x.example").2.2.2 (by decide)).1
    rw [h]
    rw [show ((c9DemoFeed.filter (fun r => r.domain == "x.example")).filter
          MergeOoni.fail_flag).length = 1 from rfl]
    rw [show (c9DemoFeed.filter (fun r => r.domain == "x.example")).length = 2 from rfl]
    norm_num

namespace Measure

/-- Column order of the measurement store, `FIELDNAMES` of
`02_measure_connectivity.py`. -/
def FIELDNAMES : List String :=
  [ "run_id", "vantage", "timestamp_utc", "domain", "category", "subcategory"
  , "tcp_80_ok", "tcp_80_error", "tcp_443_ok", "tcp_443_error"
  , "dns_local_ok", "dns_local_ips", "dns_local_error"
  , "dns_public_ok", "dns_public_ips", "dns_public_error"
  , "http_final_url", "http_status_code", "http_outcome", "http_error"
  , "http_body_snippet"
  , "tls_ok", "tls_issuer", "tls_not_before", "tls_not_after", "tls_error" ]

/-- Defaults passed by `main` to the migration. -/
def mainDefaults : List (String × String) :=
  [("vantage", "unknown"), ("http_body_snippet", "")]

/-- Lookup of a key in a CSV row or defaults dict modelled as an association
list (Python `dict.get(k)` returning `None` when absent). -/
def lookupField (row : List (String × String)) (k : String) : Option String :=
  (row.find? (fun p => p.1 == k)).map Prod.snd

/-- Python `row.get(fn, defaults.get(fn, ""))` inside the migration loop. -/
def getWithDefault (row defaults : List (String × String)) (fn : String) : String :=
  match lookupField row fn with
  | some v => v
  | none =>
      match lookupField defaults fn with
      | some d => d
      | none => ""

/-- One migrated row: exactly the current schema columns, each cell the
legacy value when the legacy row has the column, else the default. -/
def migrateRow (fieldnames : List String) (defaults row : List (String × String)) :
    List (String × String) :=
  fieldnames.map (fun fn => (fn, getWithDefault row defaults fn))

/-- Embedding of `migrate_output_columns` from `02_measure_connectivity.py`
on a non-empty existing store: `none` means the file is left untouched (no
schema column is missing), `some rows` means it is rewritten exactly once
with header `fieldnames` and the migrated rows. -/
def migrate_output_columns (fieldnames : List String)
    (defaults : List (String × String)) (existing_fields : List String)
    (legacy_rows : List (List (String × String))) :
    Option (List (List (String × String))) :=
  let missing := fieldnames.filter (fun fn => !(existing_fields.contains fn))
  if missing.isEmpty then none
  else some (legacy_rows.map (migrateRow fieldnames defaults))

end Measure

theorem lookupField_migrateRow (fieldnames : List String)
    (defaults row : List (String × String)) (fn : String) :
    Measure.lookupField (Measure.migrateRow fieldnames defaults row) fn =
      if fn ∈ fieldnames then some (Measure.getWithDefault row defaults fn)
      else none := by
  induction fieldnames with
  | nil => simp [Measure.migrateRow, Measure.lookupField]
  | cons g gs ih =>
      by_cases hg : g = fn
      · subst hg
        simp [Measure.migrateRow, Measure.lookupField, List.find?]
      · simp only [Measure.migrateRow, List.map_cons, Measure.lookupField, List.find?] at *
        rw [show ((g, Measure.getWithDefault row defaults g).1 == fn) = false by
          simp [hg]]
        simpa [Measure.migrateRow, Measure.lookupField, List.mem_cons,
          Ne.symm hg] using ih

theorem lookupField_none_of_not_mem (row : List (String × String)) (fn : String)
    (h : fn ∉ row.map Prod.fst) : Measure.lookupField row fn = none := by
  induction row with
  | nil => rfl
  | cons p ps ih =>
      simp only [List.map_cons, List.mem_cons] at h
      push_neg at h
      simp only [Measure.lookupField, List.find?]
      rw [show (p.1 == fn) = false by simp [Ne.symm h.1]]
      exact ih h.2

theorem lookupField_isSome_of_mem (row : List (String × String)) (fn : String)
    (h : fn ∈ row.map Prod.fst) : (Measure.lookupField row fn).isSome = true := by
  induction row with
  | nil => simp at h
  | cons p ps ih =>
      simp only [List.map_cons, List.mem_cons] at h
      by_cases hp : p.1 = fn
      · simp [Measure.lookupField, List.find?, hp]
      · simp only [Measure.lookupField, List.find?]
        rw [show (p.1 == fn) = false by simp [hp]]
        exact ih (h.resolve_left (fun he => hp he.symm))

/-- Legacy store row carrying a column (`note`) absent from the current
schema, for the C8 counterexample. -/
def c8LegacyRow : List (String × String) := [("run_id", "r1"), ("note", "keep-me")]

/-- C8 counterexample: a legacy store whose header has a column outside the
current schema triggers the rewrite (it lacks schema columns), but the cell
of that extra column is dropped by the migration — so "no pre-existing cell
value of any legacy row is lost" is false as stated. -/
theorem c8_migration_counterexample :
    Measure.lookupField c8LegacyRow "note" = some "keep-me" ∧
    (Measure.migrate_output_columns Measure.FIELDNAMES Measure.mainDefaults
        ["run_id", "note"] [c8LegacyRow]).map
      (fun rows => rows.map (fun r => Measure.lookupField r "note")) = some [none] := by
  decide

/-- C8 amended: when the store lacks schema columns the migration rewrites
it exactly once, every migrated row carrying exactly the current schema
columns; every newly introduced column of every legacy row is filled with
its specified default (empty string when none is specified), and every cell
of a legacy row whose column belongs to the current schema is preserved
unchanged.  Cells in legacy columns outside the current schema are dropped. -/
theorem c8_migration_behavior (fieldnames : List String)
    (defaults : List (String × String)) (existing_fields : List String)
    (legacy_rows : List (List (String × String)))
    (hmiss : fieldnames.filter (fun fn => !(existing_fields.contains fn)) ≠ []) :
    Measure.migrate_output_columns fieldnames defaults existing_fields legacy_rows =
      some (legacy_rows.map (Measure.migrateRow fieldnames defaults)) ∧
    (∀ row ∈ legacy_rows,
       (Measure.migrateRow fieldnames defaults row).map Prod.fst = fieldnames) ∧
    (∀ row ∈ legacy_rows, row.map Prod.fst = existing_fields →
       ∀ fn ∈ fieldnames,
         (fn ∉ existing_fields →
            Measure.lookupField (Measure.migrateRow fieldnames defaults row) fn =
              some (Measure.getWithDefault [] defaults fn)) ∧
         (fn ∈ existing_fields →
            Measure.lookupField (Measure.migrateRow fieldnames defaults row) fn =
              Measure.lookupField row fn)) := by
  refine ⟨?_, ?_, ?_⟩
  · simp only [Measure.migrate_output_columns]
    rw [if_neg (by simpa [List.isEmpty_iff] using hmiss)]
  · intro row _
    simp only [Measure.migrateRow, List.map_map]
    have hcomp : (Prod.fst ∘ fun fn => (fn, Measure.getWithDefault row defaults fn)) =
        fun fn : String => fn := rfl
    rw [hcomp]
    exact List.map_id' fieldnames
  · intro row _ hkeys fn hfn
    constructor
    · intro hnot
      rw [lookupField_migrateRow, if_pos hfn]
      have hnone : Measure.lookupField row fn = none :=
        lookupField_none_of_not_mem row fn (by rw [hkeys]; exact hnot)
      unfold Measure.getWithDefault
      rw [hnone]
      rfl
    · intro hmem
      rw [lookupField_migrateRow, if_pos hfn]
      have hsome : (Measure.lookupField row fn).isSome = true :=
        lookupField_isSome_of_mem row fn (by rw [hkeys]; exact hmem)
      obtain ⟨v, hv⟩ := Option.isSome_iff_exists.mp hsome
      unfold Measure.getWithDefault
      rw [hv]

/-- Legacy store row lacking the later-introduced columns, for the C8
witness. -/
def c8OldRow : List (String × String) := [("run_id", "r1"), ("domain", "a.example")]

theorem c8_migration_behavior_witness :
    Measure.lookupField
        (Measure.migrateRow Measure.FIELDNAMES Measure.mainDefaults c8OldRow) "vantage" =
      some "unknown" ∧
    Measure.lookupField
        (Measure.migrateRow Measure.FIELDNAMES Measure.mainDefaults c8OldRow) "run_id" =
      some "r1" := by
  have h := c8_migration_behavior Measure.FIELDNAMES Measure.mainDefaults
    ["run_id", "domain"] [c8OldRow] (by decide)
  have h3 := h.2.2 c8OldRow (by simp) rfl
  constructor
  · have hv := (h3 "vantage" (by decide)).1 (by decide)
    rw [hv]
    decide
  · have hr := (h3 "run_id" (by decide)).2 (by decide)
    rw [hr]
    decide
